import Mathlib

/-!
Verification of the local-first synchronization engine of the
`mobile-server` repository (client in `src/`, Express backend in `server/`).

The development shallowly embeds, directly from the JavaScript source:
  * `src/utils/errorMessages.js`     → `getFriendlyErrorMessage`
  * `src/services/serverRepository.js` → `serverRepoAdd` / `serverRepoUpdate` / `serverRepoRemove`
  * `src/services/offlineQueue.js`   → `enqueue` / `queueGetAll` / `dequeue` / `incrementAttempts`
  * `src/data/indexedDbRepository.js` → `getById` / `add` / `update` / `remove` /
                                        `updateLocalId` / `upsert`, and the observer fan-out
  * `src/services/syncService.js`     → `processOp` / `drainLoop` / `syncPendingOperations`
  * `server/repository.js`            → `srvUpdate` (server-side in-place update)

Asynchronous I/O is modelled by explicit state passing; the outcome of each
network request is an oracle parameter (`RemoteResult`); observable actions
(observer notifications, remote calls, queue writes) are logged as `Effect`s.
-/

namespace MobileSync

/-! ## String helpers (JS `String.prototype.includes` / `toLowerCase`) -/

/-- Does `pat` occur at the head of `s`? -/
def subWordAt : List Char → List Char → Bool
  | [], _ => true
  | _ :: _, [] => false
  | a :: as, b :: bs => a == b && subWordAt as bs

/-- Does `pat` occur anywhere inside `s`? (JS `s.includes(pat)`) -/
def hasSubWord (pat : List Char) : List Char → Bool
  | [] => subWordAt pat []
  | b :: bs => subWordAt pat (b :: bs) || hasSubWord pat bs

/-- JS `s.includes(pat)`. -/
def strContains (s pat : String) : Bool := hasSubWord pat.data s.data

/-- JS `s.toLowerCase()` (ASCII suffices for the messages involved). -/
def strLower (s : String) : String := ⟨s.data.map Char.toLower⟩

/-- JS truthiness of an optional string (`undefined`, `null` and `''` are falsy). -/
def truthy : Option String → Bool
  | none => false
  | some s => !(s == "")

/-! ## Errors

A JavaScript `Error` as the client code inspects it: `message`, and the
optional `status` / `details` / `userMessage` fields that `apiRequest`
attaches (`serverRepository.js` lines 31-37). -/

structure JsError where
  message : String
  status : Option Nat := none
  details : Option String := none
  userMessage : Option String := none
deriving Repr, DecidableEq

/-- `getFriendlyErrorMessage` from `src/utils/errorMessages.js`, translated
branch by branch. -/
def getFriendlyErrorMessage (error : JsError) : String :=
  let errorMessage := error.message
  let errorString := strLower errorMessage
  if strContains errorString "network" || strContains errorString "fetch" ||
     strContains errorString "failed to fetch" ||
     strContains errorMessage "ERR_NETWORK" ||
     strContains errorMessage "ERR_INTERNET_DISCONNECTED" then
    "Unable to connect to the server. Please check your internet connection and try again."
  else if strContains errorString "timeout" || strContains errorString "timed out" then
    "The request took too long. Please check your connection and try again."
  else if error.status == some 500 || strContains errorString "500" ||
          strContains errorString "internal server" then
    "The server encountered an error. Please try again later."
  else if error.status == some 404 || strContains errorString "404" ||
          strContains errorString "not found" then
    "The requested item could not be found."
  else if error.status == some 400 || strContains errorString "400" ||
          strContains errorString "bad request" then
    let details := error.details.getD error.message
    if !(details == "") && !(details == errorMessage) then
      "Invalid data: " ++ details
    else
      "Invalid data provided. Please check your input and try again."
  else if error.status == some 401 || strContains errorString "401" ||
          strContains errorString "unauthorized" then
    "You are not authorized to perform this action."
  else if error.status == some 403 || strContains errorString "403" ||
          strContains errorString "forbidden" then
    "You do not have permission to perform this action."
  else if strContains errorString "database" || strContains errorString "indexeddb" ||
          strContains errorString "storage" then
    "Unable to save data locally. Please check your browser storage settings."
  else if strContains errorString "id" &&
          (strContains errorString "required" || strContains errorString "missing") then
    "An item identifier is required. Please try refreshing the page."
  else if strContains errorString "connection" || strContains errorString "connect" then
    "Unable to connect to the server. Please check your internet connection."
  else if truthy error.userMessage then
    error.userMessage.getD ""
  else
    "Something went wrong. Please try again. If the problem persists, contact support."

/-! ## Data model

A record (`property`) as the client stores it: the active key `id`, the
optional canonical identifier `serverId` (absent or `null` until the remote
authority assigns one), and the remaining attribute fields. -/

structure Property where
  id : String
  serverId : Option String := none
  fields : List (String × String) := []
deriving Repr, DecidableEq

/-- A JSON object travelling through the queue or over the wire: the three
identifier fields the code destructures (`id`, `localId`, `serverId`) plus
the attribute fields. `none` models an absent (or `null`) field. -/
structure OpData where
  id : Option String := none
  localId : Option String := none
  serverId : Option String := none
  fields : List (String × String) := []
deriving Repr, DecidableEq

/-- Observable actions performed by the client code. -/
inductive Effect where
  /-- `observer.notify(propertiesCache)` with the given snapshot. -/
  | notify (snapshot : List Property)
  /-- `serverRepo.add(payload)` was issued (a POST left the client). -/
  | remoteCreate (payload : OpData)
  /-- `serverRepo.update(payload)` was issued. -/
  | remoteUpdate (payload : OpData)
  /-- `serverRepo.remove(id)` was issued. -/
  | remoteDelete (id : Option String)
  /-- `offlineQueue.enqueue(kind, data)` persisted a queue entry. -/
  | enqueued (kind : String) (data : OpData)
  /-- `offlineQueue.incrementAttempts(op.id)` at the head of a drain step. -/
  | attempt (opId : Nat)
deriving Repr, DecidableEq

/-! ## Durable Operation Queue (`src/services/offlineQueue.js`) -/

structure QueueOp where
  id : Nat
  operation : String
  data : OpData
  timestamp : Nat
  attempts : Nat
deriving Repr, DecidableEq

/-- The IndexedDB object store `operations`: stored items plus the
auto-increment key counter. -/
structure QueueState where
  items : List QueueOp
  nextKey : Nat
deriving Repr, DecidableEq

/-- `enqueue(operation, data)`: appends `{operation, data, timestamp: Date.now(),
attempts: 0}` under a fresh auto-increment key. `now` is the `Date.now()` value. -/
def enqueue (qs : QueueState) (operation : String) (data : OpData) (now : Nat) :
    QueueState × List Effect :=
  let queueItem : QueueOp :=
    { id := qs.nextKey, operation := operation, data := data, timestamp := now, attempts := 0 }
  ({ items := qs.items ++ [queueItem], nextKey := qs.nextKey + 1 },
   [Effect.enqueued operation data])

/-- `getAll()`: all stored operations sorted by `timestamp` ascending
(`operations.sort((a, b) => a.timestamp - b.timestamp)`, a stable sort). -/
def queueGetAll (qs : QueueState) : List QueueOp :=
  qs.items.insertionSort (fun a b => a.timestamp ≤ b.timestamp)

/-- `dequeue(id)`: deletes the item under key `id` (idempotent). -/
def dequeue (qs : QueueState) (i : Nat) : QueueState :=
  { qs with items := qs.items.filter (fun o => !(o.id == i)) }

/-- `incrementAttempts(id)`: bumps `attempts` of the item under key `id`,
a no-op when the item is absent. -/
def incrementAttempts (qs : QueueState) (i : Nat) : QueueState :=
  { qs with items := qs.items.map (fun o =>
      if o.id == i then { o with attempts := o.attempts + 1 } else o) }

/-! ## Remote Client (`src/services/serverRepository.js`)

The outcome of one HTTP request is an oracle value.  `apiRequest` turns a
non-ok response into an `Error` with `message = errorData.error || 'HTTP n'`,
`status` and `details` attached; a transport failure is an `Error` with no
status.  Each exported function catches that error and re-throws
`new Error(getFriendlyErrorMessage(error))` — a fresh `Error` carrying only
the friendly message (no `status`, no `details`). -/

inductive RemoteResult where
  /-- 2xx response whose JSON body is `prop` (ignored by `remove`). -/
  | ok (prop : Property)
  /-- non-ok response: HTTP status, optional `error` and `details` body fields. -/
  | httpErr (status : Nat) (serverMsg : Option String) (details : Option String)
  /-- `fetch` itself rejected (network failure, CORS, timeout …). -/
  | netErr (msg : String)
deriving Repr, DecidableEq

/-- The `Error` thrown by `apiRequest` for a failed request. -/
def apiRequestError : RemoteResult → JsError
  | .httpErr s m d => { message := m.getD ("HTTP " ++ toString s), status := some s, details := d }
  | .netErr m => { message := m }
  | .ok _ => { message := "" }

/-- The `Error` re-thrown by the exported serverRepository functions:
only the friendly message survives the wrapping. -/
def wrapServerError (r : RemoteResult) : JsError :=
  { message := getFriendlyErrorMessage (apiRequestError r) }

/-- `serverRepo.add(propertyData)`: strips `id` and POSTs; returns the server
record or throws the wrapped error. The stripped payload is reported so the
caller can log the effect. -/
def serverRepoAdd (payload : OpData) (r : RemoteResult) :
    (Except JsError Property) × OpData :=
  let sent := { payload with id := none }
  match r with
  | .ok p => (.ok p, sent)
  | e => (.error (wrapServerError e), sent)

/-- `serverRepo.update(property)`: requires a truthy `id`, PUTs the payload. -/
def serverRepoUpdate (payload : OpData) (r : RemoteResult) : Except JsError Property :=
  if !(truthy payload.id) then
    .error { message := getFriendlyErrorMessage { message := "Property ID is required for update" } }
  else
    match r with
    | .ok p => .ok p
    | e => .error (wrapServerError e)

/-- `serverRepo.remove(id)`: requires a truthy `id`, DELETEs; resolves `{id}`. -/
def serverRepoRemove (oid : Option String) (r : RemoteResult) : Except JsError Unit :=
  if !(truthy oid) then
    .error { message := getFriendlyErrorMessage { message := "Property ID is required for deletion" } }
  else
    match r with
    | .ok _ => .ok ()
    | e => .error (wrapServerError e)

/-! ## Local Cache Store (`src/data/indexedDbRepository.js`)

The IndexedDB object store `properties` is keyed by `id` (`keyPath: 'id'`),
so `put` replaces the record under an existing key and inserts otherwise;
`propertiesCache` is the nullable in-memory snapshot. -/

/-- The record stored under key `i`, if any (`objectStore.get(i)`). -/
def storeGet (l : List Property) (i : String) : Option Property :=
  l.find? (fun p => p.id == i)

/-- `objectStore.put(p)`: replace the record under key `p.id`, or append.
Also the exact cache update of `upsert` (`findIndex` then assign-or-spread). -/
def putById : List Property → Property → List Property
  | [], p => [p]
  | q :: t, p => if q.id == p.id then p :: t else q :: putById t p

/-- `objectStore.delete(i)`. -/
def storeDelete (l : List Property) (i : String) : List Property :=
  l.filter (fun p => !(p.id == i))

structure RepoState where
  store : List Property
  cache : Option (List Property)
  initialized : Bool
deriving Repr, DecidableEq

/-- `getById(id)`: when the cache is populated and initialized, a cache hit
wins; otherwise (miss, null cache, or uninitialized) read durable storage. -/
def getById (rs : RepoState) (i : String) : Option Property :=
  match rs.cache, rs.initialized with
  | some c, true =>
    match c.find? (fun p => p.id == i) with
    | some p => some p
    | none => storeGet rs.store i
  | _, _ => storeGet rs.store i

/-- `updateLocalId(localId, serverId)`: when no record is stored under
`localId` this merely logs a warning and returns; otherwise the record is
re-keyed in durable storage (delete then put) and in the cache (filter then
append) and observers are notified once with the new snapshot. -/
def updateLocalId (rs : RepoState) (localId serverId : String) :
    RepoState × List Effect :=
  match getById rs localId with
  | none => (rs, [])
  | some property =>
    let updatedProperty := { property with serverId := some serverId, id := serverId }
    let store' := putById (storeDelete rs.store localId) updatedProperty
    let cache' := ((rs.cache.getD []).filter (fun p => !(p.id == localId))) ++ [updatedProperty]
    ({ rs with store := store', cache := some cache' }, [Effect.notify cache'])

/-- `upsert(property)`: `put` into durable storage; replace-or-append in the
cache (`findIndex`/assign or spread-append); notify observers. -/
def upsert (rs : RepoState) (property : Property) : RepoState × List Effect :=
  let store' := putById rs.store property
  let cache' := putById (rs.cache.getD []) property
  ({ rs with store := store', cache := some cache' }, [Effect.notify cache'])

/-- `add(property)`: `property` is the caller's payload (attribute fields
only); `localId` is the generated `local_…` identifier and `now` the
`Date.now()` value used for any enqueue.  Writes
`{...property, id: localId, serverId: null}` through, notifies observers,
then — only when `isNetworkOnline()` is true — attempts the remote create,
remapping on success and enqueuing a `create` operation on failure; when
offline it enqueues directly without a remote attempt. -/
def add (online : Bool) (remote : RemoteResult) (now : Nat)
    (property : List (String × String)) (localId : String)
    (rs : RepoState) (qs : QueueState) :
    RepoState × QueueState × List Effect :=
  let propertyWithLocalId : Property := { id := localId, serverId := none, fields := property }
  let store' := putById rs.store propertyWithLocalId
  let cache' := (rs.cache.getD []) ++ [propertyWithLocalId]
  let rs1 : RepoState := { rs with store := store', cache := some cache' }
  let eff0 := [Effect.notify cache']
  if online then
    let (res, sent) := serverRepoAdd { fields := property } remote
    match res with
    | .ok serverProperty =>
      let (rs2, eff2) := updateLocalId rs1 localId serverProperty.id
      (rs2, qs, eff0 ++ [Effect.remoteCreate sent] ++ eff2)
    | .error _ =>
      let (qs', effq) :=
        enqueue qs "create" { localId := some localId, fields := property } now
      (rs1, qs', eff0 ++ [Effect.remoteCreate sent] ++ effq)
  else
    let (qs', effq) :=
      enqueue qs "create" { localId := some localId, fields := property } now
    (rs1, qs', eff0 ++ effq)

/-- `update(property)`: requires a truthy `property.id` and an existing
durable record under it (else rejects).  Writes
`{...property, serverId: existing.serverId || null}` through and notifies
observers; then, when online and remapped (`serverId` truthy), attempts the
remote update (upserting the echoed record on success, enqueuing on
failure); when not yet remapped does nothing further; when offline but
remapped, enqueues. -/
def update (online : Bool) (remote : RemoteResult) (now : Nat)
    (property : Property) (rs : RepoState) (qs : QueueState) :
    Except JsError (RepoState × QueueState × List Effect) :=
  if property.id == "" then
    .error { message := "Property ID is required for update" }
  else
    match storeGet rs.store property.id with
    | none =>
      .error { message := "Property with ID " ++ property.id ++ " not found" }
    | some found =>
      let updatedProperty := { property with serverId := found.serverId }
      let store' := putById rs.store updatedProperty
      let cache' := (rs.cache.getD []).map
        (fun p => if p.id == updatedProperty.id then updatedProperty else p)
      let rs1 : RepoState := { rs with store := store', cache := some cache' }
      let eff0 := [Effect.notify cache']
      let sent : OpData :=
        { id := updatedProperty.serverId, serverId := updatedProperty.serverId,
          fields := updatedProperty.fields }
      if online && truthy updatedProperty.serverId then
        match serverRepoUpdate sent remote with
        | .ok serverProperty =>
          let (rs2, eff2) := upsert rs1 serverProperty
          .ok (rs2, qs, eff0 ++ [Effect.remoteUpdate sent] ++ eff2)
        | .error _ =>
          let (qs', effq) := enqueue qs "update" sent now
          .ok (rs1, qs', eff0 ++ [Effect.remoteUpdate sent] ++ effq)
      else if !(truthy updatedProperty.serverId) then
        .ok (rs1, qs, eff0)
      else
        let (qs', effq) := enqueue qs "update" sent now
        .ok (rs1, qs', eff0 ++ effq)

/-- `remove(id)`: requires a truthy `id` and an existing durable record
(else rejects).  Deletes locally and notifies observers; then, when the
record had a canonical identifier, attempts the remote delete when online
(enqueuing a `delete` operation on failure) or enqueues directly when
offline; a never-remapped record needs no network action. -/
def remove (online : Bool) (remote : RemoteResult) (now : Nat)
    (i : String) (rs : RepoState) (qs : QueueState) :
    Except JsError (RepoState × QueueState × List Effect) :=
  if i == "" then
    .error { message := "Property ID is required for deletion" }
  else
    match storeGet rs.store i with
    | none =>
      .error { message := "Property with ID " ++ i ++ " not found" }
    | some found =>
      let serverId := found.serverId
      let store' := storeDelete rs.store i
      let cache' := (rs.cache.getD []).filter (fun p => !(p.id == i))
      let rs1 : RepoState := { rs with store := store', cache := some cache' }
      let eff0 := [Effect.notify cache']
      if online && truthy serverId then
        match serverRepoRemove serverId remote with
        | .ok _ => .ok (rs1, qs, eff0 ++ [Effect.remoteDelete serverId])
        | .error _ =>
          let (qs', effq) := enqueue qs "delete" { id := serverId } now
          .ok (rs1, qs', eff0 ++ [Effect.remoteDelete serverId] ++ effq)
      else if truthy serverId then
        let (qs', effq) := enqueue qs "delete" { id := serverId } now
        .ok (rs1, qs', eff0 ++ effq)
      else
        .ok (rs1, qs, eff0)

/-! ## Sync Engine (`src/services/syncService.js`) -/

/-- The retry classifier of `syncPendingOperations` (lines 206-217): an error
is "network-related" — hence retryable — when its status is 5xx, its message
matches one of the transport patterns, or it carries no status at all. -/
def isNetworkError (e : JsError) : Bool :=
  let errorMsgLower := strLower e.message
  (match e.status with
   | some s => decide (s ≥ 500)
   | none => false) ||
  e.status == some 502 || e.status == some 503 || e.status == some 504 ||
  strContains errorMsgLower "network" ||
  strContains errorMsgLower "fetch" ||
  strContains errorMsgLower "failed to fetch" ||
  strContains errorMsgLower "cors" ||
  strContains errorMsgLower "unable to connect" ||
  strContains errorMsgLower "connection" ||
  strContains errorMsgLower "timeout" ||
  e.status.isNone

/-- Outcome of one loop iteration of the drain. -/
structure StepResult where
  repo : RepoState
  queue : QueueState
  success : Nat
  failed : Nat
  effects : List Effect
deriving Repr, DecidableEq

/-- The shared `catch` block of the drain loop (lines 191-238): count the
failure, then dequeue only non-network errors; network/server errors stay
queued for retry. -/
def failBranch (op : QueueOp) (rs : RepoState) (qs : QueueState)
    (e : JsError) (effs : List Effect) : StepResult :=
  let qs' := if !(isNetworkError e) then dequeue qs op.id else qs
  { repo := rs, queue := qs', success := 0, failed := 1, effects := effs }

/-- Lines 119-146 of the create case: after the remote create succeeded with
server record `result`, remap the still-existing local record to the
server-assigned identifier, or upsert the server record when the local one
is gone (or the operation carried no local identifier). -/
def createLocalStep (op : QueueOp) (rs : RepoState) (result : Property) :
    RepoState × List Effect :=
  if truthy op.data.localId then
    match getById rs (op.data.localId.getD "") with
    | some _ => updateLocalId rs (op.data.localId.getD "") result.id
    | none => upsert rs result
  else
    upsert rs result

/-- One iteration of the `for (const op of pendingOps)` body, after the
reachability check: increment the attempt counter, then dispatch on
`op.operation`.  `remote` is the outcome of the remote call this iteration
would issue. -/
def processOp (remote : RemoteResult) (op : QueueOp)
    (rs : RepoState) (qs0 : QueueState) : StepResult :=
  let qs := incrementAttempts qs0 op.id
  let effA := [Effect.attempt op.id]
  if op.operation == "create" then
    -- const { localId, id, serverId, ...propertyData } = op.data
    let propertyData : OpData := { fields := op.data.fields }
    let (res, sent) := serverRepoAdd propertyData remote
    match res with
    | .ok result =>
      let (rs', effL) := createLocalStep op rs result
      { repo := rs', queue := dequeue qs op.id, success := 1, failed := 0,
        effects := effA ++ [Effect.remoteCreate sent] ++ effL }
    | .error e =>
      failBranch op rs qs e (effA ++ [Effect.remoteCreate sent])
  else if op.operation == "update" then
    match serverRepoUpdate op.data remote with
    | .ok _ =>
      { repo := rs, queue := dequeue qs op.id, success := 1, failed := 0,
        effects := effA ++ [Effect.remoteUpdate op.data] }
    | .error e =>
      failBranch op rs qs e (effA ++ [Effect.remoteUpdate op.data])
  else if op.operation == "delete" then
    match serverRepoRemove op.data.id remote with
    | .ok _ =>
      { repo := rs, queue := dequeue qs op.id, success := 1, failed := 0,
        effects := effA ++ [Effect.remoteDelete op.data.id] }
    | .error deleteError =>
      -- if the message mentions 'not found' or '404', treat as success
      if strContains deleteError.message "not found" ||
         strContains deleteError.message "404" then
        { repo := rs, queue := dequeue qs op.id, success := 1, failed := 0,
          effects := effA ++ [Effect.remoteDelete op.data.id] }
      else
        failBranch op rs qs deleteError (effA ++ [Effect.remoteDelete op.data.id])
  else
    -- unknown operation type: warn and dequeue, counting nothing
    { repo := rs, queue := dequeue qs op.id, success := 0, failed := 0, effects := effA }

/-- Environment of one drain: the network-status answers (at entry, after the
grace wait, and before each operation) and the remote outcome per operation. -/
structure DrainEnv where
  onlineStart : Bool
  onlineGrace : Bool
  onlineAt : Nat → Bool
  remote : QueueOp → RemoteResult

structure SyncState where
  repo : RepoState
  queue : QueueState
  syncing : Bool
deriving Repr, DecidableEq

structure DrainOutcome where
  state : SyncState
  success : Nat
  failed : Nat
  effects : List Effect

/-- The `for` loop over the snapshot of pending operations: before each
operation the network status is re-checked and the remaining drain is
abandoned (break) when it is lost. -/
def drainLoop (env : DrainEnv) :
    List QueueOp → Nat → RepoState → QueueState → Nat → Nat → List Effect →
    RepoState × QueueState × Nat × Nat × List Effect
  | [], _, rs, qs, succ, fail, effs => (rs, qs, succ, fail, effs)
  | op :: rest, i, rs, qs, succ, fail, effs =>
    if !(env.onlineAt i) then
      (rs, qs, succ, fail, effs)
    else
      let r := processOp (env.remote op) op rs qs
      drainLoop env rest (i + 1) r.repo r.queue (succ + r.success) (fail + r.failed)
        (effs ++ r.effects)

/-- `syncPendingOperations()`: bail out when offline (after one grace
re-check) or when a drain is already in flight; otherwise snapshot the queue
in timestamp order and process it. -/
def syncPendingOperations (env : DrainEnv) (st : SyncState) : DrainOutcome :=
  if !env.onlineStart && !env.onlineGrace then
    { state := st, success := 0, failed := 0, effects := [] }
  else if st.syncing then
    { state := st, success := 0, failed := 0, effects := [] }
  else
    let pendingOps := queueGetAll st.queue
    match pendingOps with
    | [] => { state := { st with syncing := false }, success := 0, failed := 0, effects := [] }
    | _ =>
      let (rs', qs', succ, fail, effs) := drainLoop env pendingOps 0 st.repo st.queue 0 0 []
      { state := { repo := rs', queue := qs', syncing := false },
        success := succ, failed := fail, effects := effs }

/-- The drain-step trace: which queue entries the loop actually processed
(the `incrementAttempts` calls, in order). -/
def processedIds (effs : List Effect) : List Nat :=
  effs.filterMap (fun e => match e with | .attempt i => some i | _ => none)

/-! ## Observer fan-out (`RepositoryObserver.notify`, lines 26-35)

Each subscriber callback may carry out its own side effects (modelled on a
world `σ`) or throw; `notify` visits every subscriber in order and swallows
individual exceptions (`try { callback(data) } catch { log }`). -/

def notifyAll {σ : Type} (subscribers : List (List Property → σ → Except String σ))
    (data : List Property) (w : σ) : σ :=
  subscribers.foldl
    (fun w callback =>
      match callback data w with
      | .ok w' => w'
      | .error _ => w)
    w

/-! ## Server-side repository (`server/repository.js`)

Only `update` is needed here: it stores the client's payload verbatim
(`properties[index] = { ...property }`), including any `serverId` field the
client sent, and returns the stored object (which the PUT route echoes as
the response body and broadcasts as an `updated` push event). -/

def srvUpdate (properties : List OpData) (property : OpData) :
    Option (List OpData × OpData) :=
  if !(truthy property.id) then
    none -- the route rejects before storing; the thrown error is out of scope
  else if properties.any (fun p => p.id == property.id) then
    some (properties.map (fun p => if p.id == property.id then property else p), property)
  else
    none

/-- A record pulled from the server (`GET /api/properties` JSON) as the
client repository stores it: `serverId` survives the round trip verbatim. -/
def pulledProperty (d : OpData) : Property :=
  { id := d.id.getD "", serverId := d.serverId, fields := d.fields }

/-! ## Helper lemmas -/

/-- Frequently used empty states. -/
def emptyRepo : RepoState := { store := [], cache := none, initialized := false }

def emptyQueue : QueueState := { items := [], nextKey := 0 }

/-- A drain environment that stays online and answers every request with `r`. -/
def envAlwaysOnline (r : RemoteResult) : DrainEnv :=
  { onlineStart := true, onlineGrace := true, onlineAt := fun _ => true,
    remote := fun _ => r }

def isRemoteCreate : Effect → Bool
  | .remoteCreate _ => true
  | _ => false

def isRemoteUpdate : Effect → Bool
  | .remoteUpdate _ => true
  | _ => false

def isRemoteDelete : Effect → Bool
  | .remoteDelete _ => true
  | _ => false

def isEnqueueEffect : Effect → Bool
  | .enqueued _ _ => true
  | _ => false

/-- Did the remote request fail (either HTTP-level or transport-level)? -/
def remoteFails : RemoteResult → Bool
  | .ok _ => false
  | _ => true

/-- The effect list of a repository call that may reject. -/
def effectsOf (x : Except JsError (RepoState × QueueState × List Effect)) : List Effect :=
  match x with
  | .ok (_, _, e) => e
  | .error _ => []

theorem mem_putById {l : List Property} {p x : Property} (h : x ∈ putById l p) :
    x = p ∨ x ∈ l := by
  induction l with
  | nil => simpa [putById] using h
  | cons q t ih =>
    simp only [putById] at h
    by_cases hq : q.id == p.id
    · rw [if_pos hq] at h
      rcases List.mem_cons.mp h with h1 | h1
      · exact Or.inl h1
      · exact Or.inr (List.mem_cons_of_mem q h1)
    · rw [if_neg hq] at h
      rcases List.mem_cons.mp h with h1 | h1
      · exact Or.inr (h1 ▸ List.mem_cons_self q t)
      · rcases ih h1 with h2 | h2
        · exact Or.inl h2
        · exact Or.inr (List.mem_cons_of_mem q h2)

theorem putById_find?_self (l : List Property) (p : Property) :
    (putById l p).find? (fun x => x.id == p.id) = some p := by
  induction l with
  | nil => simp [putById, List.find?]
  | cons q t ih =>
    simp only [putById]
    by_cases hq : q.id == p.id
    · rw [if_pos hq]
      simp [List.find?]
    · rw [if_neg hq]
      simp only [List.find?_cons, hq]
      exact ih

theorem putById_of_fresh {l : List Property} {p : Property}
    (h : ∀ x ∈ l, x.id ≠ p.id) : putById l p = l ++ [p] := by
  induction l with
  | nil => simp [putById]
  | cons q t ih =>
    have hq : (q.id == p.id) = false :=
      beq_eq_false_iff_ne.mpr (h q (List.mem_cons_self q t))
    rw [putById, if_neg (by simp [hq]), ih (fun x hx => h x (List.mem_cons_of_mem q hx))]
    simp

theorem find?_append_of_none {l₁ l₂ : List Property} {f : Property → Bool}
    (h : l₁.find? f = none) : (l₁ ++ l₂).find? f = l₂.find? f := by
  induction l₁ with
  | nil => simp
  | cons q t ih =>
    rw [List.find?_cons] at h
    rcases hq : f q with hv | hv
    · rw [List.cons_append, List.find?_cons, hq]
      exact ih (by rwa [hq] at h)
    · rw [hq] at h
      exact absurd h (by simp)

theorem storeGet_storeDelete_self (l : List Property) (i : String) :
    storeGet (storeDelete l i) i = none := by
  rw [storeGet, List.find?_eq_none]
  intro x hx
  have := List.of_mem_filter hx
  simpa using this

theorem getById_upsert_self (rs : RepoState) (p : Property) :
    getById (upsert rs p).1 p.id = some p := by
  simp only [upsert, getById]
  cases h : rs.initialized
  · simpa [storeGet] using putById_find?_self rs.store p
  · simp [putById_find?_self]

theorem getById_updateLocalId_new (rs : RepoState) (old new : String) (q : Property)
    (h : getById rs old = some q)
    (hc : ∀ x ∈ rs.cache.getD [], x.id ≠ new) :
    getById (updateLocalId rs old new).1 new =
      some { id := new, serverId := some new, fields := q.fields } := by
  have hfilter :
      ((rs.cache.getD []).filter (fun p : Property => !(p.id == old))).find?
        (fun p : Property => p.id == new) = none := by
    rw [List.find?_eq_none]
    intro x hx
    simpa using hc x (List.mem_of_mem_filter hx)
  simp only [updateLocalId, h]
  simp only [getById]
  cases hinit : rs.initialized
  · simpa [storeGet] using
      putById_find?_self (storeDelete rs.store old) { q with serverId := some new, id := new }
  · simp [find?_append_of_none hfilter, List.find?]

theorem getById_updateLocalId_old (rs : RepoState) (old new : String) (q : Property)
    (h : getById rs old = some q) (hne : old ≠ new) :
    getById (updateLocalId rs old new).1 old = none := by
  simp only [updateLocalId, h]
  have hstore :
      storeGet (putById (storeDelete rs.store old) { q with serverId := some new, id := new }) old
        = none := by
    rw [storeGet, List.find?_eq_none]
    intro x hx
    rcases mem_putById hx with h1 | h1
    · simp [h1, Ne.symm hne]
    · have := List.of_mem_filter h1
      simpa using this
  have hcache :
      (((rs.cache.getD []).filter (fun p : Property => !(p.id == old))) ++
          [({ q with serverId := some new, id := new } : Property)]).find?
        (fun p : Property => p.id == old) = none := by
    rw [List.find?_eq_none]
    intro x hx
    rcases List.mem_append.mp hx with h1 | h1
    · have := List.of_mem_filter h1
      simpa using this
    · simp only [List.mem_singleton] at h1
      simp [h1, Ne.symm hne]
  simp only [getById]
  cases hinit : rs.initialized
  · exact hstore
  · simp [hcache, hstore]

theorem updateLocalId_effects_hit (rs : RepoState) (old new : String) (q : Property)
    (h : getById rs old = some q) :
    (updateLocalId rs old new).2 =
      [Effect.notify (((rs.cache.getD []).filter (fun p => !(p.id == old))) ++
        [{ id := new, serverId := some new, fields := q.fields }])] := by
  simp only [updateLocalId, h]

theorem updateLocalId_miss (rs : RepoState) (old new : String)
    (h : getById rs old = none) :
    updateLocalId rs old new = (rs, []) := by
  simp [updateLocalId, h]

theorem processedIds_append (a b : List Effect) :
    processedIds (a ++ b) = processedIds a ++ processedIds b := by
  simp [processedIds, List.filterMap_append]

theorem processedIds_updateLocalId (rs : RepoState) (a b : String) :
    processedIds (updateLocalId rs a b).2 = [] := by
  rcases h : getById rs a with _ | q <;> simp [updateLocalId, h, processedIds]

theorem processedIds_upsert (rs : RepoState) (p : Property) :
    processedIds (upsert rs p).2 = [] := by
  simp [upsert, processedIds]

theorem processedIds_nil : processedIds [] = [] := rfl

theorem processedIds_cons_attempt (i : Nat) (es : List Effect) :
    processedIds (Effect.attempt i :: es) = i :: processedIds es := by
  simp [processedIds]

theorem processedIds_cons_notify (c : List Property) (es : List Effect) :
    processedIds (Effect.notify c :: es) = processedIds es := by
  simp [processedIds]

theorem processedIds_cons_remoteCreate (d : OpData) (es : List Effect) :
    processedIds (Effect.remoteCreate d :: es) = processedIds es := by
  simp [processedIds]

theorem processedIds_cons_remoteUpdate (d : OpData) (es : List Effect) :
    processedIds (Effect.remoteUpdate d :: es) = processedIds es := by
  simp [processedIds]

theorem processedIds_cons_remoteDelete (d : Option String) (es : List Effect) :
    processedIds (Effect.remoteDelete d :: es) = processedIds es := by
  simp [processedIds]

theorem processedIds_cons_enqueued (k : String) (d : OpData) (es : List Effect) :
    processedIds (Effect.enqueued k d :: es) = processedIds es := by
  simp [processedIds]

theorem processedIds_createLocalStep (op : QueueOp) (rs : RepoState) (p : Property) :
    processedIds (createLocalStep op rs p).2 = [] := by
  unfold createLocalStep
  repeat' split <;>
    try simp [processedIds_updateLocalId, processedIds_upsert]

theorem processedIds_processOp (r : RemoteResult) (op : QueueOp)
    (rs : RepoState) (qs : QueueState) :
    processedIds (processOp r op rs qs).effects = [op.id] := by
  unfold processOp
  rcases r with p | ⟨s, m, d⟩ | m <;>
    simp only [serverRepoAdd, serverRepoUpdate, serverRepoRemove, failBranch] <;>
    repeat' split <;>
      try simp [processedIds_nil, processedIds_cons_attempt, processedIds_cons_notify,
        processedIds_cons_remoteCreate, processedIds_cons_remoteUpdate,
        processedIds_cons_remoteDelete, processedIds_cons_enqueued,
        processedIds_updateLocalId, processedIds_upsert, processedIds_createLocalStep]

theorem drainLoop_processedIds (env : DrainEnv) (hon : ∀ j, env.onlineAt j = true) :
    ∀ (ops : List QueueOp) (i : Nat) (rs : RepoState) (qs : QueueState)
      (succ fail : Nat) (effs : List Effect),
      processedIds (drainLoop env ops i rs qs succ fail effs).2.2.2.2 =
        processedIds effs ++ ops.map (fun o => o.id) := by
  intro ops
  induction ops with
  | nil =>
    intro i rs qs succ fail effs
    simp [drainLoop]
  | cons op rest ih =>
    intro i rs qs succ fail effs
    rw [drainLoop, hon i]
    simp only [Bool.not_true, Bool.false_eq_true, if_false]
    rw [ih]
    simp [processedIds_append, processedIds_processOp]

/-! ## General facts about the drain failure classification

`serverRepository` re-throws every failure as `new Error(friendlyMessage)`,
which carries no `status`; `syncPendingOperations` classifies an error with
no status as network-related.  Together these make the drain's
non-retryable-drop branch unreachable for remote failures. -/

theorem wrapServerError_status_none (r : RemoteResult) :
    (wrapServerError r).status = none := rfl

theorem isNetworkError_of_status_none (e : JsError) (h : e.status = none) :
    isNetworkError e = true := by
  simp [isNetworkError, h]

/-! ## Claim theorems -/

/-- Scenario for C1: one queued `update` operation whose remote dispatch
fails with HTTP 400 (a validation error — `RemoteValidation`), exactly the
server's `PUT` failure response `{error: 'Failed to update property',
details}` (`server/index.js` lines 128-131). -/
def c1queue : QueueState :=
  { items := [{ id := 1, operation := "update",
                data := { id := some "7", serverId := some "7",
                          fields := [("title", "x")] },
                timestamp := 0, attempts := 0 }],
    nextKey := 2 }

def c1result : DrainOutcome :=
  syncPendingOperations
    (envAlwaysOnline
      (.httpErr 400 (some "Failed to update property") (some "Invalid property data")))
    { repo := emptyRepo, queue := c1queue, syncing := false }

/-- **C1.** The claim says a drain failure with a 4xx status other than
not-found dequeues and drops the operation.  The code disagrees: the
`serverRepository` wrapper re-throws `new Error(friendlyMessage)` without
the HTTP status, so the drain's classifier sees no status and treats the
HTTP 400 validation failure as retryable — the operation is counted failed
but stays in the queue untouched (attempt counter aside).  The retryable
half of the claim (5xx / timeout / no status stays queued) does hold; the
4xx-drop half is contradicted here at a concrete failing input. -/
theorem c1_validation_failure_stays_queued :
    c1result.failed = 1 ∧ c1result.success = 0 ∧
    c1result.state.queue.items.map (fun o => o.id) = [1] ∧
    c1result.state.queue.items.map (fun o => o.data) =
      [{ id := some "7", serverId := some "7", fields := [("title", "x")] }] := by
  decide

/-- Scenario for C2: one queued `delete` operation whose target is already
absent remotely — the remote delete returns HTTP 404 with the server's body
`{error: 'Property not found'}` (`server/index.js` lines 146-149). -/
def c2queue : QueueState :=
  { items := [{ id := 3, operation := "delete", data := { id := some "5" },
                timestamp := 0, attempts := 0 }],
    nextKey := 4 }

def c2result : DrainOutcome :=
  syncPendingOperations
    (envAlwaysOnline (.httpErr 404 (some "Property not found") none))
    { repo := emptyRepo, queue := c2queue, syncing := false }

/-- **C2.** The claim says a drained delete whose target is already absent
remotely (remote 404) is treated as success: dequeued and counted in the
success total.  The code disagrees: `serverRepository.remove` re-throws the
friendly message `'The requested item could not be found.'` (no status),
which matches neither `includes('not found')` nor `includes('404')` in the
drain's idempotent-delete check, so the error is re-thrown, counted in the
failed total, and — having no status — classified retryable, leaving the
operation queued.  Draining the same delete twice yields `{failed: 1}` both
times, never `{success: 1}`. -/
theorem c2_absent_delete_counted_failed :
    c2result.failed = 1 ∧ c2result.success = 0 ∧
    c2result.state.queue.items.map (fun o => o.id) = [3] ∧
    wrapServerError (.httpErr 404 (some "Property not found") none) =
      { message := "The requested item could not be found." } := by
  decide

/-- `updateLocalId` never performs a remote create. -/
theorem updateLocalId_no_remoteCreate (rs : RepoState) (a b : String) :
    (updateLocalId rs a b).2.any isRemoteCreate = false := by
  rcases h : getById rs a with _ | q <;> simp [updateLocalId, h, isRemoteCreate]

/-- `updateLocalId` never enqueues anything. -/
theorem updateLocalId_no_enqueue (rs : RepoState) (a b : String) :
    (updateLocalId rs a b).2.filter isEnqueueEffect = [] := by
  rcases h : getById rs a with _ | q <;> simp [updateLocalId, h, isEnqueueEffect]

/-- **C3 counterexample.** `add` while the cached reachability flag is false:
no remote create is attempted (even though the provided remote outcome would
have been a success) and a `create` operation is enqueued anyway — refuting
"a remote create is attempted at least once regardless of the cached
reachability flag; only when that attempt fails is a create QueueOperation
enqueued". -/
theorem c3_offline_add_never_attempts_create :
    (add false (.ok { id := "9" }) 5 [("title", "x")] "local_1" emptyRepo emptyQueue).2.2 =
      [Effect.notify [{ id := "local_1", serverId := none, fields := [("title", "x")] }],
       Effect.enqueued "create" { localId := some "local_1", fields := [("title", "x")] }] ∧
    (add false (.ok { id := "9" }) 5 [("title", "x")] "local_1" emptyRepo
        emptyQueue).2.2.any isRemoteCreate = false := by
  decide

/-- **C3 (amended).** For every call to `add(record)`: the local write-through
and synchronous observer notification come first; a remote create is then
attempted if and only if the cached reachability flag is true; and exactly
one `create` QueueOperation — carrying the local identifier — is enqueued
when the flag is false or the attempt failed, and nothing is enqueued
otherwise. -/
theorem c3_add_remote_create_gated_on_flag
    (online : Bool) (remote : RemoteResult) (now : Nat)
    (property : List (String × String)) (localId : String)
    (rs : RepoState) (qs : QueueState) :
    (add online remote now property localId rs qs).2.2.head? =
      some (Effect.notify ((rs.cache.getD []) ++
        [{ id := localId, serverId := none, fields := property }])) ∧
    (add online remote now property localId rs qs).2.2.any isRemoteCreate = online ∧
    (add online remote now property localId rs qs).2.2.filter isEnqueueEffect =
      (if (!online || remoteFails remote) then
        [Effect.enqueued "create" { localId := some localId, fields := property }]
      else []) := by
  cases online <;> rcases remote with p | ⟨s, m, d⟩ | m <;>
    refine ⟨by simp [add, serverRepoAdd, enqueue], ?_, ?_⟩ <;>
      simp [add, serverRepoAdd, enqueue, isRemoteCreate, isEnqueueEffect, remoteFails,
        updateLocalId_no_remoteCreate, updateLocalId_no_enqueue]

/-- When a drained create succeeds remotely, the step result is exactly:
remote payload stripped of every identifier field, local remap-or-upsert,
dequeue, `success` counted. -/
theorem processOp_create_ok (op : QueueOp) (rs : RepoState) (qs : QueueState)
    (p : Property) (hop : op.operation = "create") :
    processOp (.ok p) op rs qs =
      { repo := (createLocalStep op rs p).1,
        queue := dequeue (incrementAttempts qs op.id) op.id,
        success := 1, failed := 0,
        effects := Effect.attempt op.id ::
          Effect.remoteCreate { fields := op.data.fields } ::
            (createLocalStep op rs p).2 } := by
  simp [processOp, hop, serverRepoAdd]

/-- **C4.** For every `create` operation drained with a successful remote
outcome `p`: the payload sent to the remote authority is stripped of every
identifier field (`id`, `localId`, `serverId` all absent, only the attribute
fields remain); when the operation carried a (truthy) local identifier and a
local record still exists under it, the record is remapped to the
server-assigned canonical identifier (readable under `p.id` with its fields
intact, no longer readable under the local identifier); when no local record
exists — or no local identifier was carried — the server-confirmed record is
upserted instead; and in every case the operation is dequeued and counted in
the success total. -/
theorem c4_create_drain_strips_ids_then_remaps_or_upserts
    (op : QueueOp) (rs : RepoState) (qs : QueueState) (p : Property)
    (hop : op.operation = "create") :
    (processOp (.ok p) op rs qs).success = 1 ∧
    (processOp (.ok p) op rs qs).failed = 0 ∧
    (processOp (.ok p) op rs qs).effects =
      Effect.attempt op.id ::
        Effect.remoteCreate
          { id := none, localId := none, serverId := none, fields := op.data.fields } ::
          (createLocalStep op rs p).2 ∧
    (∀ o ∈ (processOp (.ok p) op rs qs).queue.items, o.id ≠ op.id) ∧
    (∀ lid q, op.data.localId = some lid → lid ≠ "" → getById rs lid = some q →
      (processOp (.ok p) op rs qs).repo = (updateLocalId rs lid p.id).1 ∧
      ((∀ x ∈ rs.cache.getD [], x.id ≠ p.id) →
        getById (processOp (.ok p) op rs qs).repo p.id =
          some { id := p.id, serverId := some p.id, fields := q.fields }) ∧
      (lid ≠ p.id → getById (processOp (.ok p) op rs qs).repo lid = none)) ∧
    (∀ lid, op.data.localId = some lid → lid ≠ "" → getById rs lid = none →
      (processOp (.ok p) op rs qs).repo = (upsert rs p).1 ∧
      getById (processOp (.ok p) op rs qs).repo p.id = some p) ∧
    (op.data.localId = none →
      (processOp (.ok p) op rs qs).repo = (upsert rs p).1 ∧
      getById (processOp (.ok p) op rs qs).repo p.id = some p) := by
  rw [processOp_create_ok op rs qs p hop]
  refine ⟨rfl, rfl, rfl, ?_, ?_, ?_, ?_⟩
  · intro o ho
    have := List.of_mem_filter ho
    simpa using this
  · intro lid q hlid hne hget
    have hstep : createLocalStep op rs p = updateLocalId rs lid p.id := by
      simp [createLocalStep, hlid, truthy, hne, hget]
    rw [hstep]
    exact ⟨rfl, fun hc => getById_updateLocalId_new rs lid p.id q hget hc,
      fun hlp => getById_updateLocalId_old rs lid p.id q hget hlp⟩
  · intro lid hlid hne hget
    have hstep : createLocalStep op rs p = upsert rs p := by
      simp [createLocalStep, hlid, truthy, hne, hget]
    rw [hstep]
    exact ⟨rfl, getById_upsert_self rs p⟩
  · intro hnone
    have hstep : createLocalStep op rs p = upsert rs p := by
      simp [createLocalStep, hnone, truthy]
    rw [hstep]
    exact ⟨rfl, getById_upsert_self rs p⟩

/-- Concrete repository for the C4 witness: one never-synced local record. -/
def c4repo : RepoState :=
  { store := [{ id := "local_1", serverId := none, fields := [("title", "x")] }],
    cache := some [{ id := "local_1", serverId := none, fields := [("title", "x")] }],
    initialized := true }

def c4op : QueueOp :=
  { id := 7, operation := "create",
    data := { localId := some "local_1", fields := [("title", "x")] },
    timestamp := 0, attempts := 0 }

/-- Closed instance of `c4_create_drain_strips_ids_then_remaps_or_upserts` at a
concrete queued create with an existing local record. -/
theorem c4_create_drain_witness :
    (processOp (.ok { id := "9", fields := [("title", "x")] }) c4op c4repo
        emptyQueue).success = 1 ∧
    getById (processOp (.ok { id := "9", fields := [("title", "x")] }) c4op c4repo
        emptyQueue).repo "9" =
      some { id := "9", serverId := some "9", fields := [("title", "x")] } ∧
    getById (processOp (.ok { id := "9", fields := [("title", "x")] }) c4op c4repo
        emptyQueue).repo "local_1" = none :=
  have h := c4_create_drain_strips_ids_then_remaps_or_upserts c4op c4repo emptyQueue
    { id := "9", fields := [("title", "x")] } rfl
  have h5 := h.2.2.2.2.1 "local_1"
    { id := "local_1", serverId := none, fields := [("title", "x")] }
    rfl (by decide) (by decide)
  ⟨h.1, by simpa using h5.2.1 (by decide), by simpa using h5.2.2 (by decide)⟩

/-- **C5.** For every `update(record)` where the record exists locally (in
durable storage) but has no canonical identifier yet: the call succeeds with
exactly the local write-through and one observer notification — the queue is
returned untouched and the effect list contains no remote call and no
enqueue. -/
theorem c5_update_unsynced_is_local_only
    (online : Bool) (remote : RemoteResult) (now : Nat)
    (property : Property) (rs : RepoState) (qs : QueueState) (found : Property)
    (hid : property.id ≠ "")
    (hfound : storeGet rs.store property.id = some found)
    (hsid : found.serverId = none) :
    update online remote now property rs qs =
      .ok ({ rs with
              store := putById rs.store { property with serverId := none },
              cache := some ((rs.cache.getD []).map fun pr =>
                if pr.id == property.id then { property with serverId := none } else pr) },
            qs,
            [Effect.notify ((rs.cache.getD []).map fun pr =>
              if pr.id == property.id then { property with serverId := none } else pr)]) := by
  simp [update, hid, hfound, hsid, truthy]

/-- Closed instance of `c5_update_unsynced_is_local_only` at a concrete
never-synced record. -/
theorem c5_update_unsynced_witness :
    update true (.ok { id := "9" }) 3
        { id := "local_1", serverId := none, fields := [("title", "y")] }
        c4repo emptyQueue =
      .ok ({ store := [{ id := "local_1", serverId := none, fields := [("title", "y")] }],
             cache := some [{ id := "local_1", serverId := none, fields := [("title", "y")] }],
             initialized := true },
           emptyQueue,
           [Effect.notify
             [{ id := "local_1", serverId := none, fields := [("title", "y")] }]]) :=
  c5_update_unsynced_is_local_only true (.ok { id := "9" }) 3
    { id := "local_1", serverId := none, fields := [("title", "y")] }
    c4repo emptyQueue
    { id := "local_1", serverId := none, fields := [("title", "x")] }
    (by decide) (by decide) rfl

/-- **C6.** While a drain is in progress (`isSyncing` true), every further
call to `syncPendingOperations` returns `{success: 0, failed: 0}` with the
whole state untouched and no effects — no queued operation is processed, so
no two drains run concurrently. -/
theorem c6_drain_is_single_flight (env : DrainEnv) (st : SyncState)
    (h : st.syncing = true) :
    syncPendingOperations env st =
      { state := st, success := 0, failed := 0, effects := [] } := by
  unfold syncPendingOperations
  rw [h]
  split <;> rfl

/-- A nonempty queue for the C6 witness. -/
def c6queue : QueueState :=
  { items := [{ id := 4, operation := "delete", data := { id := some "5" },
                timestamp := 1, attempts := 0 }],
    nextKey := 5 }

/-- Closed instance of `c6_drain_is_single_flight`: a drain requested while
one is already in flight touches nothing even with operations queued. -/
theorem c6_drain_single_flight_witness :
    syncPendingOperations (envAlwaysOnline (.ok { id := "9" }))
        { repo := emptyRepo, queue := c6queue, syncing := true } =
      { state := { repo := emptyRepo, queue := c6queue, syncing := true },
        success := 0, failed := 0, effects := [] } :=
  c6_drain_is_single_flight (envAlwaysOnline (.ok { id := "9" }))
    { repo := emptyRepo, queue := c6queue, syncing := true } rfl

/-- **C7.** Every operation stored by `enqueue` has attempt count zero and —
whenever the clock reading is at least every stored timestamp, i.e. the
clock is monotone — a timestamp no smaller than that of any previously
enqueued operation; `getAll` returns all pending operations (a permutation
of the stored items) in non-decreasing timestamp order; and a drain that
starts online and stays online processes exactly those operations in exactly
that order (witnessed by its per-operation attempt-increment trace). -/
theorem c7_enqueue_getAll_drain_order :
    (∀ (qs : QueueState) (operation : String) (data : OpData) (now : Nat),
      ∃ it, (enqueue qs operation data now).1.items = qs.items ++ [it] ∧
        it.attempts = 0 ∧ it.timestamp = now ∧
        ((∀ o ∈ qs.items, o.timestamp ≤ now) →
          ∀ o ∈ qs.items, o.timestamp ≤ it.timestamp)) ∧
    (∀ qs : QueueState,
      List.Sorted (fun a b : QueueOp => a.timestamp ≤ b.timestamp) (queueGetAll qs) ∧
      (queueGetAll qs).Perm qs.items) ∧
    (∀ (env : DrainEnv) (st : SyncState), st.syncing = false →
      env.onlineStart = true → (∀ i, env.onlineAt i = true) →
      processedIds (syncPendingOperations env st).effects =
        (queueGetAll st.queue).map (fun o => o.id)) := by
  refine ⟨?_, ?_, ?_⟩
  · intro qs operation data now
    exact ⟨_, rfl, rfl, rfl, fun h o ho => h o ho⟩
  · intro qs
    constructor
    · haveI : IsTotal QueueOp (fun a b => a.timestamp ≤ b.timestamp) :=
        ⟨fun a b => Nat.le_total a.timestamp b.timestamp⟩
      haveI : IsTrans QueueOp (fun a b => a.timestamp ≤ b.timestamp) :=
        ⟨fun a b c hab hbc => Nat.le_trans hab hbc⟩
      exact List.sorted_insertionSort _ _
    · exact List.perm_insertionSort _ _
  · intro env st hsync hstart hon
    unfold syncPendingOperations
    rw [hstart, hsync]
    simp only [Bool.not_true, Bool.false_and, Bool.false_eq_true, if_false]
    rcases hq : queueGetAll st.queue with _ | ⟨o, os⟩
    · simp [processedIds]
    · rcases hdl : drainLoop env (o :: os) 0 st.repo st.queue 0 0 [] with
        ⟨rs', qs', succ, fail, effs⟩
      have hkey := drainLoop_processedIds env hon (o :: os) 0 st.repo st.queue 0 0 []
      rw [hdl] at hkey
      simp only [hdl]
      simpa [processedIds] using hkey

/-- A concrete queue whose stored order disagrees with timestamp order. -/
def c7q : QueueState :=
  { items := [{ id := 1, operation := "update",
                data := { id := some "7", serverId := some "7" },
                timestamp := 4, attempts := 0 },
              { id := 2, operation := "delete", data := { id := some "5" },
                timestamp := 2, attempts := 0 }],
    nextKey := 3 }

/-- Closed instance of `c7_enqueue_getAll_drain_order`: the appended
operation, the sorted read-back, and a full drain of `c7q` that processes
the queue in timestamp order `[2, 1]` rather than stored order `[1, 2]`. -/
theorem c7_order_witness :
    (∃ it, (enqueue c7q "delete" { id := some "5" } 9).1.items = c7q.items ++ [it] ∧
      it.attempts = 0 ∧ it.timestamp = 9 ∧
      ((∀ o ∈ c7q.items, o.timestamp ≤ 9) →
        ∀ o ∈ c7q.items, o.timestamp ≤ it.timestamp)) ∧
    List.Sorted (fun a b : QueueOp => a.timestamp ≤ b.timestamp) (queueGetAll c7q) ∧
    processedIds (syncPendingOperations (envAlwaysOnline (.ok { id := "9" }))
        { repo := emptyRepo, queue := c7q, syncing := false }).effects =
      (queueGetAll c7q).map (fun o => o.id) :=
  ⟨c7_enqueue_getAll_drain_order.1 c7q "delete" { id := some "5" } 9,
   (c7_enqueue_getAll_drain_order.2.1 c7q).1,
   c7_enqueue_getAll_drain_order.2.2 (envAlwaysOnline (.ok { id := "9" }))
     { repo := emptyRepo, queue := c7q, syncing := false } rfl rfl (fun _ => rfl)⟩

/-- **C8.** `remapIdentifier` (`updateLocalId`): after remapping a stored
record from `oldId` to a fresh `newId`, a cache read under `newId` returns
the pre-remap payload with its attribute fields unchanged and only the
identifier fields (`id`, and the canonical marker `serverId`) rewritten to
`newId`; a read under `oldId` returns not-found; observers are notified
exactly once, after completion, with the new snapshot; and calling it when
no record exists under `oldId` is not an error — the state is returned
untouched with no notification.  (Freshness of `newId` in the in-memory
snapshot reflects §6 of the spec: canonical identifiers are never reused.) -/
theorem c8_remap_identifier :
    (∀ (rs : RepoState) (old new : String) (q : Property),
      getById rs old = some q → old ≠ new →
      (∀ x ∈ rs.cache.getD [], x.id ≠ new) →
      getById (updateLocalId rs old new).1 new =
        some { id := new, serverId := some new, fields := q.fields } ∧
      getById (updateLocalId rs old new).1 old = none ∧
      (updateLocalId rs old new).2 =
        [Effect.notify (((rs.cache.getD []).filter (fun pr => !(pr.id == old))) ++
          [{ id := new, serverId := some new, fields := q.fields }])]) ∧
    (∀ (rs : RepoState) (old new : String),
      getById rs old = none → updateLocalId rs old new = (rs, [])) := by
  constructor
  · intro rs old new q h hne hc
    exact ⟨getById_updateLocalId_new rs old new q h hc,
      getById_updateLocalId_old rs old new q h hne,
      updateLocalId_effects_hit rs old new q h⟩
  · intro rs old new h
    exact updateLocalId_miss rs old new h

/-- Closed instance of `c8_remap_identifier`: remapping the concrete local
record succeeds, and remapping a missing identifier is a no-op. -/
theorem c8_remap_identifier_witness :
    getById (updateLocalId c4repo "local_1" "9").1 "9" =
      some { id := "9", serverId := some "9", fields := [("title", "x")] } ∧
    getById (updateLocalId c4repo "local_1" "9").1 "local_1" = none ∧
    updateLocalId c4repo "9" "10" = (c4repo, []) :=
  have h := c8_remap_identifier.1 c4repo "local_1" "9"
    { id := "local_1", serverId := none, fields := [("title", "x")] }
    (by decide) (by decide) (by decide)
  ⟨h.1, h.2.1, c8_remap_identifier.2 c4repo "9" "10" (by decide)⟩

/-- **C9.** `RepositoryObserver.notify` is exception-isolating: inserting a
subscriber that always throws anywhere into the subscriber list changes
nothing for the others — every other subscriber is still invoked with the
same snapshot, in the same order, with the same cumulative result, and the
publishing call itself returns normally (by the type of `notifyAll`). -/
theorem c9_observer_exception_is_isolated {σ : Type}
    (pre post : List (List Property → σ → Except String σ))
    (bad : List Property → σ → Except String σ)
    (data : List Property) (w : σ)
    (hbad : ∀ w', ∃ msg, bad data w' = Except.error msg) :
    notifyAll (pre ++ bad :: post) data w = notifyAll (pre ++ post) data w := by
  unfold notifyAll
  rw [List.foldl_append, List.foldl_append, List.foldl_cons]
  obtain ⟨msg, hm⟩ := hbad (List.foldl
    (fun w cb => match cb data w with | .ok w' => w' | .error _ => w) w pre)
  simp [hm]

/-- Closed instance of `c9_observer_exception_is_isolated`: a throwing
middle subscriber does not change what the surrounding subscribers compute. -/
theorem c9_observer_isolation_witness :
    notifyAll [fun _ w => Except.ok (w + 1), fun _ _ => Except.error "boom",
        fun _ w => Except.ok (w * 2)] [] (3 : Nat) =
      notifyAll [fun _ w => Except.ok (w + 1), fun _ w => Except.ok (w * 2)] [] 3 :=
  c9_observer_exception_is_isolated [fun _ w => Except.ok (w + 1)]
    [fun _ w => Except.ok (w * 2)] (fun _ _ => Except.error "boom") [] 3
    (fun _ => ⟨"boom", rfl⟩)

/-- `update` on a record whose stored `serverId` is absent: pure local
write-through, queue and remote untouched (lines 251-273 take the
`!updatedProperty.serverId` branch). -/
theorem update_unsynced_local_only
    (online : Bool) (remote : RemoteResult) (now : Nat)
    (property : Property) (rs : RepoState) (qs : QueueState) (found : Property)
    (hid : property.id ≠ "")
    (hfound : storeGet rs.store property.id = some found)
    (hsid : found.serverId = none) :
    update online remote now property rs qs =
      .ok ({ rs with
              store := putById rs.store { property with serverId := none },
              cache := some ((rs.cache.getD []).map fun pr =>
                if pr.id == property.id then { property with serverId := none } else pr) },
            qs,
            [Effect.notify ((rs.cache.getD []).map fun pr =>
              if pr.id == property.id then { property with serverId := none } else pr)]) := by
  simp [update, hid, hfound, hsid, truthy]

/-- `remove` on a record whose stored `serverId` is absent: pure local
delete, queue and remote untouched (lines 346-354 take the no-`serverId`
branch). -/
theorem remove_unsynced_local_only
    (online : Bool) (remote : RemoteResult) (now : Nat)
    (i : String) (rs : RepoState) (qs : QueueState) (found : Property)
    (hid : i ≠ "")
    (hfound : storeGet rs.store i = some found)
    (hsid : found.serverId = none) :
    remove online remote now i rs qs =
      .ok ({ rs with
              store := storeDelete rs.store i,
              cache := some ((rs.cache.getD []).filter (fun pr => !(pr.id == i))) },
            qs,
            [Effect.notify ((rs.cache.getD []).filter (fun pr => !(pr.id == i)))]) := by
  simp [remove, hid, hfound, hsid, truthy]

/-- The record synced under canonical identifier "5" on both sides, plus the
exact PUT payload the client sends when updating it online. -/
def c10syncedRepo : RepoState :=
  { store := [{ id := "5", serverId := some "5", fields := [("title", "a")] }],
    cache := some [{ id := "5", serverId := some "5", fields := [("title", "a")] }],
    initialized := true }

def c10sent : OpData :=
  { id := some "5", serverId := some "5", fields := [("title", "b")] }

/-- **C10 counterexample.** Remote-originated payloads do *not* always lack a
`serverId` field: the client's online update PUTs `{...updatedProperty, id:
serverId}` — a payload that still carries `serverId` — and the server's
`update` stores it verbatim and echoes it, so a subsequent reconciliation
pull (or `updated` push event) delivers a record *with* `serverId`;
`upsert` then stores it with that field present, and a later `update()` of
that record is no longer local-only — it enqueues an update operation when
offline, contradicting the claim's universal "stored without a serverId
field … enqueues nothing". -/
theorem c10_pulled_record_can_carry_serverId :
    Effect.remoteUpdate c10sent ∈ effectsOf (update true (.ok { id := "5" }) 0
        { id := "5", serverId := none, fields := [("title", "b")] }
        c10syncedRepo emptyQueue) ∧
    srvUpdate [{ id := some "5", fields := [("title", "a")] }] c10sent =
      some ([c10sent], c10sent) ∧
    (pulledProperty c10sent).serverId = some "5" ∧
    ((upsert emptyRepo (pulledProperty c10sent)).1.store.map fun pr => pr.serverId) =
      [some "5"] ∧
    (effectsOf (update false (.netErr "Failed to fetch") 7
        { id := "5", serverId := none, fields := [("title", "c")] }
        (upsert emptyRepo (pulledProperty c10sent)).1 emptyQueue)).any
      isEnqueueEffect = true := by
  decide

/-- **C10 (amended).** Every record upserted from a remote payload that
carries no `serverId` field is stored without one; consequently a later
`update()` of that record succeeds with only the local write-through and
observer notification (no remote update, nothing enqueued, queue returned
untouched), and a later `remove()` deletes it locally with no remote delete
and no queue entry. -/
theorem c10_upsert_unsynced_payload_is_frame
    (p : Property) (rs : RepoState) (qs : QueueState) (online : Bool)
    (rmtU rmtD : RemoteResult) (nowU nowD : Nat)
    (fields2 : List (String × String)) (sid2 : Option String)
    (hnos : p.serverId = none) (hid : p.id ≠ "") :
    storeGet (upsert rs p).1.store p.id = some p ∧
    ∃ rs2 effs2,
      update online rmtU nowU { id := p.id, serverId := sid2, fields := fields2 }
          (upsert rs p).1 qs = .ok (rs2, qs, effs2) ∧
      effs2.any isRemoteUpdate = false ∧
      effs2.any isEnqueueEffect = false ∧
      ∃ rs3 effs3,
        remove online rmtD nowD p.id rs2 qs = .ok (rs3, qs, effs3) ∧
        effs3.any isRemoteDelete = false ∧
        effs3.any isEnqueueEffect = false ∧
        storeGet rs3.store p.id = none := by
  have h1 : storeGet (upsert rs p).1.store p.id = some p := by
    simpa [upsert, storeGet] using putById_find?_self rs.store p
  have h2 : update online rmtU nowU { id := p.id, serverId := sid2, fields := fields2 }
      (upsert rs p).1 qs =
      .ok ({ store := putById (upsert rs p).1.store
               { id := p.id, serverId := none, fields := fields2 },
             cache := some (((upsert rs p).1.cache.getD []).map fun pr =>
               if pr.id == p.id then
                 { id := p.id, serverId := none, fields := fields2 }
               else pr),
             initialized := (upsert rs p).1.initialized },
           qs,
           [Effect.notify (((upsert rs p).1.cache.getD []).map fun pr =>
             if pr.id == p.id then
               { id := p.id, serverId := none, fields := fields2 }
             else pr)]) :=
    update_unsynced_local_only online rmtU nowU
      { id := p.id, serverId := sid2, fields := fields2 } (upsert rs p).1 qs p hid h1 hnos
  refine ⟨h1, _, _, h2, by simp [isRemoteUpdate], by simp [isEnqueueEffect], ?_⟩
  have h3 : storeGet (putById (upsert rs p).1.store
      ({ id := p.id, serverId := none, fields := fields2 } : Property)) p.id =
      some { id := p.id, serverId := none, fields := fields2 } := by
    simpa [storeGet] using putById_find?_self (upsert rs p).1.store
      { id := p.id, serverId := none, fields := fields2 }
  have h4 := remove_unsynced_local_only online rmtD nowD p.id
    { store := putById (upsert rs p).1.store
        { id := p.id, serverId := none, fields := fields2 },
      cache := some (((upsert rs p).1.cache.getD []).map fun pr =>
        if pr.id == p.id then { id := p.id, serverId := none, fields := fields2 } else pr),
      initialized := (upsert rs p).1.initialized }
    qs { id := p.id, serverId := none, fields := fields2 } hid h3 rfl
  exact ⟨_, _, h4, by simp [isRemoteDelete], by simp [isEnqueueEffect],
    storeGet_storeDelete_self _ _⟩

/-- Closed instance of `c10_upsert_unsynced_payload_is_frame` at a concrete
serverId-free pulled record. -/
theorem c10_upsert_unsynced_witness :
    storeGet (upsert emptyRepo
        { id := "8", serverId := none, fields := [("t", "z")] }).1.store "8" =
      some { id := "8", serverId := none, fields := [("t", "z")] } ∧
    ∃ rs2 effs2,
      update false (.netErr "Failed to fetch") 1
          { id := "8", serverId := none, fields := [("t", "w")] }
          (upsert emptyRepo { id := "8", serverId := none, fields := [("t", "z")] }).1
          emptyQueue = .ok (rs2, emptyQueue, effs2) ∧
      effs2.any isRemoteUpdate = false ∧
      effs2.any isEnqueueEffect = false ∧
      ∃ rs3 effs3,
        remove false (.netErr "Failed to fetch") 2 "8" rs2 emptyQueue =
          .ok (rs3, emptyQueue, effs3) ∧
        effs3.any isRemoteDelete = false ∧
        effs3.any isEnqueueEffect = false ∧
        storeGet rs3.store "8" = none :=
  c10_upsert_unsynced_payload_is_frame
    { id := "8", serverId := none, fields := [("t", "z")] } emptyRepo emptyQueue false
    (.netErr "Failed to fetch") (.netErr "Failed to fetch") 1 2 [("t", "w")] none
    rfl (by decide)

end MobileSync
